import Mathlib

/-!
Verification of the real-time messaging and notification core of the
Gamgyul House backend (Django/DRF + Channels).  The Python source is
shallowly embedded: ORM rows become structures, querysets become lists,
each view/consumer/signal handler becomes a pure function from the
relevant database state to the new state, and Django's synchronous
`post_save` signal dispatch is inlined into the embedded `create` calls.
Timestamps are natural numbers; user, room and message primary keys are
natural numbers; chat-room participant identities used for `room_key`
are strings (the source sorts `str(participant.id)` values).
-/

namespace GamgyulHouse

/-- Row of chats.models.WebSocketConnection: a (user, chat_room) pair with a
connect time and a nullable disconnect time. -/
structure WSConnection where
  user : Nat
  chat_room : Nat
  connected_at : Nat
  disconnected_at : Option Nat
  deriving Repr, DecidableEq

/-- Row of chats.models.Message (content/image omitted: no claim concerns them). -/
structure Message where
  id : Nat
  chat_room : Nat
  sender : Nat
  sent_at : Nat
  is_read : Bool
  deriving Repr, DecidableEq

/-- Row of notifications.models.Notification. -/
structure Notification where
  recipient : Nat
  sender : Option Nat
  notification_type : String
  message : String
  related_object_id : Option Nat
  deriving Repr, DecidableEq

/-- The liveness test used by chats.views.MessageViewSet.create:
`WebSocketConnection.objects.filter(user=..., chat_room=...,
disconnected_at__isnull=True).exists()`. -/
def hasActiveConnection (conns : List WSConnection) (user chat_room : Nat) : Bool :=
  conns.any fun c => c.user == user && c.chat_room == chat_room && c.disconnected_at == none

/-- The queryset `WebSocketConnection.objects.filter(user=..., chat_room=...)
.order_by("-connected_at").first()` used by
chats.consumers.ChatConsumer.mark_connection_as_disconnected, and the spec's
`latestRecord` (most recent record by connect time). -/
def latest_by_connected_at (conns : List WSConnection) (user chat_room : Nat) :
    Option WSConnection :=
  (conns.filter fun c => c.user == user && c.chat_room == chat_room).foldl
    (fun acc c =>
      match acc with
      | none => some c
      | some b => if b.connected_at < c.connected_at then some c else some b)
    none

/-- The queryset `WebSocketConnection.objects.filter(user=..., chat_room=...)
.order_by("-disconnected_at").first()` used by
notifications.signals.create_notification_for_new_message.  On the configured
PostgreSQL backend, `ORDER BY disconnected_at DESC` places NULLs first, so the
first row is an active (NULL) record when one exists and otherwise the record
with the greatest disconnect time. -/
def last_by_disconnected_desc (conns : List WSConnection) (user chat_room : Nat) :
    Option WSConnection :=
  let rows := conns.filter fun c => c.user == user && c.chat_room == chat_room
  match rows.filter (fun c => c.disconnected_at == none) with
  | c :: _ => some c
  | [] =>
    rows.foldl
      (fun acc c =>
        match acc with
        | none => some c
        | some b =>
          if b.disconnected_at.getD 0 < c.disconnected_at.getD 0 then some c else some b)
      none

/-- Embeds chats.views.MessageViewSet.create (the read-state part): the message
is saved, `other_user` is the first participant other than the requesting
sender, `is_read` is reset to false and set to true exactly when an active
WebSocketConnection row exists for `other_user` in the room, and the message is
saved again.  When the room has no other participant, the Django queryset
`filter(user=None, ...)` matches nothing, so `is_read` stays false. -/
def MessageViewSet_create (conns : List WSConnection) (participants : List Nat)
    (chat_room id sender sent_at : Nat) : Message :=
  let message : Message :=
    { id := id, chat_room := chat_room, sender := sender, sent_at := sent_at, is_read := false }
  let other_user := (participants.filter fun p => p != sender).head?
  match other_user with
  | none => message
  | some ou =>
    if hasActiveConnection conns ou chat_room then { message with is_read := true }
    else message

/-- Observable notification-side state threaded through the signal handlers:
the Notification table, the log of WebSocket pushes `(recipient, text)`
issued through the channel layer, and the logger output. -/
structure NotifDB where
  notifications : List Notification
  pushes : List (Nat × String)
  logs : List String
  deriving Repr, DecidableEq

/-- Empty notification-side state. -/
def emptyNotifDB : NotifDB := { notifications := [], pushes := [], logs := [] }

/-- Embeds notifications.signals.send_notification_via_websocket: group_send of
`{notification: inst.message}` to `user_{recipient}_notifications`. -/
def send_notification_via_websocket (db : NotifDB) (inst : Notification) : NotifDB :=
  { db with pushes := db.pushes ++ [(inst.recipient, inst.message)] }

/-- Embeds `Notification.objects.create(...)`: the row is appended and Django
synchronously fires the `post_save` receiver send_notification_via_websocket,
so every create also pushes once. -/
def Notification_objects_create (db : NotifDB) (n : Notification) : NotifDB :=
  send_notification_via_websocket { db with notifications := db.notifications ++ [n] } n

/-- The idempotency check of notifications.signals.create_notification_for_new_message:
`Notification.objects.filter(recipient=..., sender=inst.sender,
notification_type="message", related_object_id=inst.id).exists()`. -/
def message_notif_exists (notifications : List Notification) (recipient : Nat) (m : Message) :
    Bool :=
  notifications.any fun n =>
    n.recipient == recipient && n.sender == some m.sender &&
      n.notification_type == "message" && n.related_object_id == some m.id

/-- The liveness inspection at the top of the loop body of
notifications.signals.create_notification_for_new_message: query the last
connection (ordered by `-disconnected_at`) and log which case holds.  The
`if`/`elif` branches of the source only log; neither affects the tables. -/
def message_notif_log (conns : List WSConnection) (inst : Message) (db : NotifDB)
    (recipient : Nat) : NotifDB :=
  match last_by_disconnected_desc conns recipient inst.chat_room with
  | none => { db with logs := db.logs ++ ["WebSocket not connected"] }
  | some c =>
    match c.disconnected_at with
    | none => { db with logs := db.logs ++ ["WebSocket not connected"] }
    | some t =>
      if inst.sent_at ≤ t then
        { db with logs := db.logs ++ ["WebSocket disconnected after message sent"] }
      else db

/-- The loop body of notifications.signals.create_notification_for_new_message
for one recipient: inspect and log the connection state, then create the
message notification unless one already exists for this message and recipient,
and push it once more explicitly after the create. -/
def message_notif_step (conns : List WSConnection) (inst : Message)
    (sender_username : String) (db : NotifDB) (recipient : Nat) : NotifDB :=
  let db := message_notif_log conns inst db recipient
  if message_notif_exists db.notifications recipient inst then db
  else
    let notification : Notification :=
      { recipient := recipient, sender := some inst.sender,
        notification_type := "message",
        message := sender_username ++ "님이 새로운 메시지를 보냈습니다.",
        related_object_id := some inst.id }
    send_notification_via_websocket (Notification_objects_create db notification) notification

/-- Embeds notifications.signals.create_notification_for_new_message: iterate
`message_notif_step` over `chat_room.participants.exclude(id=inst.sender.id)`. -/
def create_notification_for_new_message (conns : List WSConnection)
    (participants : List Nat) (inst : Message) (sender_username : String)
    (db : NotifDB) : NotifDB :=
  (participants.filter fun r => r != inst.sender).foldl
    (message_notif_step conns inst sender_username) db

/-- Row of comments.models.Comment, restricted to the fields the notification
signal reads: the comment id, its post's id and owner, and its author. -/
structure Comment where
  id : Nat
  post_id : Nat
  post_user : Nat
  user : Nat
  deriving Repr, DecidableEq

/-- Embeds notifications.signals.create_notification_for_new_comment: notify the
post owner unless a notification with (recipient, sender, type="comment",
related_object_id=inst.post.id) already exists.  Note the idempotency key
uses the POST id, not the comment id. -/
def create_notification_for_new_comment (inst : Comment) (sender_username : String)
    (db : NotifDB) : NotifDB :=
  let recipient := inst.post_user
  let sender := inst.user
  if db.notifications.any (fun n =>
      n.recipient == recipient && n.sender == some sender &&
        n.notification_type == "comment" && n.related_object_id == some inst.post_id) then
    db
  else
    Notification_objects_create db
      { recipient := recipient, sender := some sender, notification_type := "comment",
        message := sender_username ++ "님이 게시물에 댓글을 남겼습니다.",
        related_object_id := some inst.post_id }

/-- Row of follow.models.Follow as read by the notification signal. -/
structure Follow where
  follower : Nat
  following : Nat
  deriving Repr, DecidableEq

/-- Embeds notifications.signals.create_notification_for_new_follower: notify
`inst.following` unless a follow notification from the same sender exists
(the key has no related_object_id). -/
def create_notification_for_new_follower (inst : Follow) (sender_username : String)
    (db : NotifDB) : NotifDB :=
  let recipient := inst.following
  let sender := inst.follower
  if db.notifications.any (fun n =>
      n.recipient == recipient && n.sender == some sender &&
        n.notification_type == "follow") then
    db
  else
    Notification_objects_create db
      { recipient := recipient, sender := some sender, notification_type := "follow",
        message := sender_username ++ "님이 당신을 팔로우했습니다.",
        related_object_id := none }

/-- Row of likes.models.Like as read by the notification signal. -/
structure Like where
  post_id : Nat
  post_user : Nat
  user : Nat
  deriving Repr, DecidableEq

/-- Embeds notifications.signals.create_notification_for_new_like: notify the
post owner unless a like notification keyed by the post already exists. -/
def create_notification_for_new_like (inst : Like) (sender_username : String)
    (db : NotifDB) : NotifDB :=
  let recipient := inst.post_user
  let sender := inst.user
  if db.notifications.any (fun n =>
      n.recipient == recipient && n.sender == some sender &&
        n.notification_type == "like" && n.related_object_id == some inst.post_id) then
    db
  else
    Notification_objects_create db
      { recipient := recipient, sender := some sender, notification_type := "like",
        message := sender_username ++ "님이 게시물을 좋아합니다.",
        related_object_id := some inst.post_id }

/-- Database write operations emitted by the two room-entry mark-as-read paths:
one bulk `UPDATE ... WHERE chat_room = r AND is_read = false AND sender <> u`,
or one `save(update_fields=["is_read"])` of a single row. -/
inductive DbWrite where
  | bulk_update (chat_room entering_user : Nat)
  | row_save (message_id : Nat)
  deriving Repr, DecidableEq

/-- Predicate selecting the rows touched by room entry for `user` in
`chat_room`: unread messages of the room not sent by the entering user. -/
def unreadForEntry (chat_room user : Nat) (m : Message) : Bool :=
  m.chat_room == chat_room && m.is_read == false && m.sender != user

/-- Embeds chats.consumers.ChatConsumer.mark_messages_as_read:
`Message.objects.filter(chat_room=..., is_read=False).exclude(sender=user)
.update(is_read=True)` — a single bulk UPDATE.  Returns the new Message table
and the list of emitted write operations. -/
def mark_messages_as_read (msgs : List Message) (chat_room user : Nat) :
    List Message × List DbWrite :=
  (msgs.map fun m => if unreadForEntry chat_room user m then { m with is_read := true } else m,
   [DbWrite.bulk_update chat_room user])

/-- One iteration of the loop in
chats.models.WebSocketConnection.mark_all_messages_as_read:
`message.is_read = True; message.save(update_fields=["is_read"])`. -/
def save_is_read_true (msgs : List Message) (message_id : Nat) : List Message :=
  msgs.map fun m => if m.id == message_id then { m with is_read := true } else m

/-- Embeds chats.models.WebSocketConnection.mark_all_messages_as_read: fetch
the unread messages of the room not sent by `user`, then set and save each in
a per-row loop.  Returns the new Message table and the emitted writes (one row
save per unread message). -/
def mark_all_messages_as_read (msgs : List Message) (chat_room user : Nat) :
    List Message × List DbWrite :=
  let unread_messages := msgs.filter (unreadForEntry chat_room user)
  (unread_messages.foldl (fun acc m => save_is_read_true acc m.id) msgs,
   unread_messages.map fun m => DbWrite.row_save m.id)

/-- Embeds the read-state side effect of chats.views.ChatRoomViewSet.retrieve,
which calls `WebSocketConnection.mark_all_messages_as_read(chat_room, request.user)`. -/
def ChatRoomViewSet_retrieve (msgs : List Message) (chat_room user : Nat) :
    List Message × List DbWrite :=
  mark_all_messages_as_read msgs chat_room user

/-- Embeds chats.consumers.ChatConsumer.mark_message_as_read: fetch the message
by id; if present and not yet read, set `is_read = True` and save; a missing id
or an already-read message leaves the table unchanged. -/
def mark_message_as_read (msgs : List Message) (message_id : Nat) : List Message :=
  msgs.map fun m =>
    if m.id == message_id && m.is_read == false then { m with is_read := true } else m

/-- The read-state mutations reachable from the chat endpoints: the WebSocket
room-entry bulk update, the HTTP room-entry per-row loop, and the per-message
read acknowledgement. -/
inductive ReadOp where
  | bulk (chat_room user : Nat)
  | loop_entry (chat_room user : Nat)
  | ack (message_id : Nat)
  deriving Repr, DecidableEq

/-- Applies one read-state operation to the Message table. -/
def applyReadOp (msgs : List Message) : ReadOp → List Message
  | ReadOp.bulk chat_room user => (mark_messages_as_read msgs chat_room user).1
  | ReadOp.loop_entry chat_room user => (mark_all_messages_as_read msgs chat_room user).1
  | ReadOp.ack message_id => mark_message_as_read msgs message_id

/-- Observable outcome of chats.consumers.ChatConsumer.connect for one session. -/
structure ChatConnectState where
  conns : List WSConnection
  msgs : List Message
  subscribed : Bool
  accepted : Bool
  ack_sent : Bool
  close_code : Option Nat
  deriving Repr, DecidableEq

/-- Embeds chats.consumers.ChatConsumer.connect: anonymous users are closed
with 4001; non-members with 4002; a member is group-added, accepted, sent the
connection_established acknowledgement, and the room-entry bulk mark-as-read
runs.  No path in connect touches the WebSocketConnection table: the source
defines record_connection but never calls it. -/
def ChatConsumer_connect (conns : List WSConnection) (msgs : List Message)
    (room_id : Nat) (scope_user : Option Nat) (is_member : Nat → Bool) : ChatConnectState :=
  match scope_user with
  | none =>
    { conns := conns, msgs := msgs, subscribed := false, accepted := false,
      ack_sent := false, close_code := some 4001 }
  | some user =>
    if is_member user then
      { conns := conns, msgs := (mark_messages_as_read msgs room_id user).1,
        subscribed := true, accepted := true, ack_sent := true, close_code := none }
    else
      { conns := conns, msgs := msgs, subscribed := false, accepted := false,
        ack_sent := false, close_code := some 4002 }

/-- Embeds chats.consumers.ChatConsumer.record_connection — defined in the
source (creates a WebSocketConnection row with a null disconnect time) but
never invoked from any code path. -/
def record_connection (conns : List WSConnection) (user room_id now : Nat) :
    List WSConnection :=
  conns ++ [{ user := user, chat_room := room_id, connected_at := now, disconnected_at := none }]

/-- Observable outcome of notifications.consumers.NotificationConsumer.connect. -/
structure NotifConnectState where
  subscribed : Bool
  accepted : Bool
  close_code : Option Nat
  deriving Repr, DecidableEq

/-- Embeds notifications.consumers.NotificationConsumer.connect: the consumer
reads the user_id from the URL, joins the `user_{id}_notifications` group and
accepts.  The scope user is never examined: no branch depends on it. -/
def NotificationConsumer_connect (scope_user : Option Nat) (url_user_id : Nat) :
    NotifConnectState :=
  { subscribed := true, accepted := true, close_code := none }

/-- Payload shapes carried by a `chat_message` group event.  REST-originated
broadcasts (chats.views.MessageViewSet.create) send a dict with the sender
embedded; WebSocket-originated broadcasts (ChatConsumer.receive) forward the
client frame's `message` value, a plain string with no sender field. -/
inductive BroadcastMessage where
  | rest_payload (sender_id : String) (message_id : String) (content : String)
  | ws_payload (text : String)
  deriving Repr, DecidableEq

/-- Result of running chats.consumers.ChatConsumer.chat_message in one
receiving session: a frame sent to the client, an early return without
sending, or the TypeError raised by `message["sender"]` when the payload's
message is a plain string. -/
inductive HandlerResult where
  | delivered (message_id : String)
  | skipped
  | type_error
  deriving Repr, DecidableEq

/-- Embeds chats.consumers.ChatConsumer.chat_message: compare
`str(message["sender"]["id"])` with `str(self.scope["user"].id)` and return
without sending when they match, else send the frame.  On a string payload the
subscript `message["sender"]` raises TypeError before anything is sent. -/
def chat_message (self_user_id : String) (message : BroadcastMessage) : HandlerResult :=
  match message with
  | BroadcastMessage.rest_payload sender_id message_id _ =>
    if sender_id == self_user_id then HandlerResult.skipped
    else HandlerResult.delivered message_id
  | BroadcastMessage.ws_payload _ => HandlerResult.type_error

/-- True exactly when the handler sent a frame to its client. -/
def delivers : HandlerResult → Bool
  | HandlerResult.delivered _ => true
  | _ => false

/-- Embeds the group event built by chats.consumers.ChatConsumer.receive for an
inbound frame with a `message` field: the client-sent string is forwarded
unchanged; no sender identity is attached. -/
def receive_build_event (message : String) : BroadcastMessage :=
  BroadcastMessage.ws_payload message

/-- Row of chats.models.ChatRoom.  Participant identities are the strings the
source sorts (`str(participant.id)`); the M2M participant set is a list. -/
structure ChatRoom where
  id : Nat
  room_key : String
  participants : List String
  deriving Repr, DecidableEq

/-- Python's string comparison, embedded: strict lexicographic order over
Unicode code points of the two character sequences. -/
def pystr_lt : List Char → List Char → Bool
  | [], [] => false
  | [], _ :: _ => true
  | _ :: _, [] => false
  | a :: as, b :: bs =>
    if a.val.toNat < b.val.toNat then true
    else if b.val.toNat < a.val.toNat then false
    else pystr_lt as bs

/-- The room_key computation of chats.serializers.ChatRoomSerializer.create:
`"_".join(sorted([str(p.id) for p in participants]))` for the two participants.
Python's stable sort puts `a` first when `a ≤ b`; for two elements this equals
the strict test below (when `a = b` both orders are the same list). -/
def room_key_of (a b : String) : String :=
  String.intercalate "_" (if pystr_lt a.data b.data then [a, b] else [b, a])

/-- Embeds chats.serializers.ChatRoomSerializer.create: require exactly two
participants; compute the sorted room_key; if a room with that key exists and
both users already participate, raise a ValidationError; if only one side
participates, re-add the missing participants (M2M `add` skips members already
present) and return the existing room; otherwise create a fresh room.  Returns
the room handed back to the caller and the resulting ChatRoom table. -/
def ChatRoomSerializer_create (rooms : List ChatRoom) (participants : List String)
    (fresh_id : Nat) : Except String (ChatRoom × List ChatRoom) :=
  if participants.length != 2 then Except.error "1대1 채팅만 가능합니다."
  else
    let room_key :=
      match participants with
      | [a, b] => room_key_of a b
      | l => String.intercalate "_" l
    match rooms.find? (fun r => r.room_key == room_key) with
    | some existing_room =>
      if participants.all (fun p => existing_room.participants.contains p) then
        Except.error "이미 이 사용자와의 채팅방이 존재합니다."
      else
        let updated :=
          { existing_room with
            participants :=
              existing_room.participants ++
                participants.filter (fun p => !existing_room.participants.contains p) }
        Except.ok (updated, rooms.map fun r => if r.id == existing_room.id then updated else r)
    | none =>
      let chat_room : ChatRoom :=
        { id := fresh_id, room_key := room_key, participants := participants }
      Except.ok (chat_room, rooms ++ [chat_room])

/-- Statement of claim C1 as written: for every new message and every room
participant other than the sender, a currently-live recipient (an active
connection record exists) gets no message-type notification from the handler —
the matching-notification test gives the same answer before and after. -/
def C1_claim_statement : Prop :=
  ∀ (db : NotifDB) (conns : List WSConnection) (participants : List Nat)
    (m : Message) (su : String) (r : Nat),
    r ∈ participants → r ≠ m.sender → hasActiveConnection conns r m.chat_room = true →
    message_notif_exists
        (create_notification_for_new_message conns participants m su db).notifications r m =
      message_notif_exists db.notifications r m

/-- Statement of claim C3 as written: with `r` the recipient (the first
participant other than the sender), a live recipient yields `is_read = true`
at creation, and a recipient with no connection record — or whose last
connection (most recent by connect time) disconnected before `sent_at` —
yields `is_read = false`. -/
def C3_claim_statement : Prop :=
  ∀ (conns : List WSConnection) (participants : List Nat)
    (chat_room id sender sent_at r : Nat),
    (participants.filter fun p => p != sender).head? = some r →
    (hasActiveConnection conns r chat_room = true →
      (MessageViewSet_create conns participants chat_room id sender sent_at).is_read = true) ∧
    (((conns.filter fun c => c.user == r && c.chat_room == chat_room) = [] ∨
        (∃ c, latest_by_connected_at conns r chat_room = some c ∧
          ∃ t, c.disconnected_at = some t ∧ t < sent_at)) →
      (MessageViewSet_create conns participants chat_room id sender sent_at).is_read = false)

/-- Statement of claim C4 as written: a connection whose credential resolves to
Anonymous is closed (with code 4001) before any subscription happens, so it is
never in the Subscribed state. -/
def C4_claim_statement : Prop :=
  ∀ (url_user_id : Nat),
    (NotificationConsumer_connect none url_user_id).subscribed = false ∧
    (NotificationConsumer_connect none url_user_id).close_code = some 4001

/-- Statement of claim C5 as written, at its refutable core: two distinct
comments (different comment ids) each produce their own notification, so
starting from an empty table the two handler runs leave two rows. -/
def C5_claim_statement : Prop :=
  ∀ (c1 c2 : Comment) (su : String),
    c1.id ≠ c2.id →
    ((create_notification_for_new_comment c2 su
        (create_notification_for_new_comment c1 su emptyNotifDB)).notifications).length = 2

/-- Statement of claim C6 as written: room_key is symmetric, and performing
room creation twice for the same unordered pair returns or reactivates the
existing room (a successful result with the same room id and no new row). -/
def C6_claim_statement : Prop :=
  (∀ a b, room_key_of a b = room_key_of b a) ∧
  ∀ (rooms : List ChatRoom) (a b : String) (id1 id2 : Nat)
    (r1 : ChatRoom) (rooms1 : List ChatRoom),
    ChatRoomSerializer_create rooms [a, b] id1 = Except.ok (r1, rooms1) →
    ∃ r2 rooms2, ChatRoomSerializer_create rooms1 [b, a] id2 = Except.ok (r2, rooms2) ∧
      r2.id = r1.id ∧ rooms2.length = rooms1.length

/-- Statement of claim C7 as written: both room-entry paths (WebSocket open and
HTTP retrieve) perform the mark-as-read as one single bulk update operation. -/
def C7_claim_statement : Prop :=
  ∀ (msgs : List Message) (chat_room user : Nat),
    (mark_messages_as_read msgs chat_room user).2 = [DbWrite.bulk_update chat_room user] ∧
    (ChatRoomViewSet_retrieve msgs chat_room user).2 = [DbWrite.bulk_update chat_room user]

/-- Statement of claim C9 as written: every receiving session compares the
sender identity embedded in the payload with its own user and delivery happens
exactly when they differ, for REST-originated and WebSocket-originated
broadcasts alike. -/
def C9_claim_statement : Prop :=
  ∀ (receiver author message_id content text : String),
    delivers (chat_message receiver (BroadcastMessage.rest_payload author message_id content))
        = (author != receiver) ∧
    (receiver ≠ author →
      delivers (chat_message receiver (receive_build_event text)) = true)

/-- Read-state monotonicity between two Message tables: same length, and a row
read in the first is still read at the same position in the second. -/
def ReadMono (msgs msgs2 : List Message) : Prop :=
  msgs2.length = msgs.length ∧
  ∀ (i : Nat) (h : i < msgs.length) (h2 : i < msgs2.length),
    (msgs.get ⟨i, h⟩).is_read = true → (msgs2.get ⟨i, h2⟩).is_read = true

/-- Claim C2 (code evaluated at the failing input): an authenticated member of
room 1 connecting over WebSocket reaches the Subscribed state (group added,
accepted, acknowledgement sent), yet the WebSocketConnection table stays empty
and isLive remains false — ChatConsumer.connect never calls record_connection,
so no ConnectionRecord with a null disconnect time is created. -/
theorem C2_connect_records_no_connection :
    (ChatConsumer_connect [] [] 1 (some 1) (fun u => u == 1)).subscribed = true ∧
    (ChatConsumer_connect [] [] 1 (some 1) (fun u => u == 1)).close_code = none ∧
    (ChatConsumer_connect [] [] 1 (some 1) (fun u => u == 1)).conns = [] ∧
    hasActiveConnection (ChatConsumer_connect [] [] 1 (some 1) (fun u => u == 1)).conns 1 1
      = false := by
  decide

/-- Claim C4 is false on the code: an anonymous notification session (scope
user resolves to none) is subscribed and accepted all the same — the consumer
never closes it with 4001 before subscribing. -/
theorem C4_counterexample : ¬ C4_claim_statement := by
  intro h
  have h7 := (h 7).1
  exact absurd h7 (by decide)

/-- Claim C4 amended: NotificationConsumer.connect performs no authentication
step at all — every connection, anonymous included, is group-subscribed and
accepted and never closed, so reaching Subscribed does not require having
passed an Authenticated state. -/
theorem C4_amended_no_auth_gate (scope_user : Option Nat) (url_user_id : Nat) :
    (NotificationConsumer_connect scope_user url_user_id).subscribed = true ∧
    (NotificationConsumer_connect scope_user url_user_id).accepted = true ∧
    (NotificationConsumer_connect scope_user url_user_id).close_code = none :=
  ⟨rfl, rfl, rfl⟩

/-- Claim C9 is false on the code as stated: a WebSocket-originated broadcast
carries the client's raw string as its `message`, with no embedded sender
identity, so the receiving handler does not compare-and-deliver — it raises a
TypeError and delivers to nobody, including recipients distinct from the
author. -/
theorem C9_counterexample : ¬ C9_claim_statement := by
  intro h
  have hd := (h "2" "1" "5" "hi" "hi").2 (by decide)
  exact absurd hd (by decide)

/-- Claim C9 amended: no self-echo holds, but by two different mechanisms.  A
REST-originated broadcast embeds the sender and is delivered exactly to
receivers distinct from the sender (in particular never echoed to the sender).
A WebSocket-originated broadcast has a plain-string payload, the handler's
subscript on it raises TypeError, and no session — sender or not — receives
the event. -/
theorem C9_amended_no_self_echo (receiver author message_id content text : String) :
    delivers (chat_message receiver (BroadcastMessage.rest_payload author message_id content))
        = (author != receiver) ∧
    chat_message receiver (receive_build_event text) = HandlerResult.type_error := by
  refine ⟨?_, rfl⟩
  cases h : author == receiver
  · simp [chat_message, delivers, h]
    exact ne_of_beq_false h
  · simp [chat_message, delivers, h]
    exact eq_of_beq h

/-- Claim C3 is false on the code as stated: with two connection records for
recipient 2 in room 1 — an older one still open (stale) and the most recent one
(by connect time) closed at time 5 — a message sent at time 10 has its "last
connection disconnected before sent_at" condition satisfied, yet the creation
path finds the stale active record and sets is_read to true, not false. -/
theorem C3_counterexample : ¬ C3_claim_statement := by
  intro h
  have h2 := (h [⟨2, 1, 1, none⟩, ⟨2, 1, 2, some 5⟩] [1, 2] 1 7 1 10 2 (by decide)).2
    (Or.inr ⟨⟨2, 1, 2, some 5⟩, by decide, 5, rfl, by decide⟩)
  exact absurd h2 (by decide)

/-- Claim C3 amended: is_read at creation equals exactly the liveness test —
true when an active (null disconnect) record exists for the recipient in the
room, false otherwise; in particular false when the recipient has no record at
all, but NOT necessarily false when only the most recent record closed before
sent_at (an older stale active record still counts as live). -/
theorem C3_amended_is_read_iff_active (conns : List WSConnection)
    (participants : List Nat) (chat_room id sender sent_at r : Nat)
    (h : (participants.filter fun p => p != sender).head? = some r) :
    (MessageViewSet_create conns participants chat_room id sender sent_at).is_read =
      hasActiveConnection conns r chat_room := by
  unfold MessageViewSet_create
  rw [h]
  by_cases hl : hasActiveConnection conns r chat_room <;> simp [hl]

/-- Witness for C3: the amended theorem applied at a concrete input — one live
record for recipient 2 in room 1, sender 1 among participants [1, 2]. -/
theorem C3_witness :
    (MessageViewSet_create [⟨2, 1, 1, none⟩] [1, 2] 1 7 1 10).is_read =
      hasActiveConnection [⟨2, 1, 1, none⟩] 2 1 :=
  C3_amended_is_read_iff_active [⟨2, 1, 1, none⟩] [1, 2] 1 7 1 10 2 (by decide)

/-- Claim C5 is false on the code: the comment-notification idempotency key
uses the POST id, not the comment id, so two distinct comments (ids 1 and 2) by
user 2 on user 1's post 1 leave a single notification row, not two. -/
theorem C5_counterexample : ¬ C5_claim_statement := by
  intro h
  exact absurd (h ⟨1, 1, 1, 2⟩ ⟨2, 1, 1, 2⟩ "u" (by decide)) (by decide)

/-- Claim C5 amended: a comment notification is created for the post owner
unless one with key (recipient, sender, type=comment, post id) exists; hence a
first comment creates one row, and ANY later comment by the same author on the
same post — whatever its comment id — creates none. -/
theorem C5_amended_comment_key_is_post (c1 c2 : Comment) (su : String)
    (hpost : c2.post_id = c1.post_id) (howner : c2.post_user = c1.post_user)
    (hauthor : c2.user = c1.user) :
    ((create_notification_for_new_comment c1 su emptyNotifDB).notifications).length = 1 ∧
    ((create_notification_for_new_comment c2 su
        (create_notification_for_new_comment c1 su emptyNotifDB)).notifications).length = 1 := by
  constructor
  · simp [create_notification_for_new_comment, Notification_objects_create,
      send_notification_via_websocket, emptyNotifDB]
  · simp [create_notification_for_new_comment, Notification_objects_create,
      send_notification_via_websocket, emptyNotifDB, hpost, howner, hauthor]

/-- Witness for C5: the amended theorem applied to comments 1 and 2 by user 2
on user 1's post 1. -/
theorem C5_witness :
    ((create_notification_for_new_comment ⟨1, 1, 1, 2⟩ "u" emptyNotifDB).notifications).length
      = 1 ∧
    ((create_notification_for_new_comment ⟨2, 1, 1, 2⟩ "u"
        (create_notification_for_new_comment ⟨1, 1, 1, 2⟩ "u"
          emptyNotifDB)).notifications).length = 1 :=
  C5_amended_comment_key_is_post ⟨1, 1, 1, 2⟩ ⟨2, 1, 1, 2⟩ "u" rfl rfl rfl

/-- Helper: the per-row-save loop is extensionally a single map marking every
row whose id occurs in the saved id list. -/
theorem foldl_save_eq_map (ids : List Nat) (msgs : List Message) :
    ids.foldl save_is_read_true msgs =
      msgs.map fun m => if m.id ∈ ids then { m with is_read := true } else m := by
  induction ids generalizing msgs with
  | nil => simp
  | cons a as ih =>
    rw [List.foldl_cons, ih, save_is_read_true, List.map_map]
    refine List.map_congr_left fun m _ => ?_
    by_cases hba : m.id == a
    · have ha : m.id = a := eq_of_beq hba
      simp only [Function.comp, hba, if_pos rfl]
      by_cases hmem : m.id ∈ as <;>
        simp [hmem, hba, List.mem_cons, ha]
    · have ha : m.id ≠ a := ne_of_beq_false (by simpa using hba)
      simp only [Function.comp, hba]
      by_cases hmem : m.id ∈ as <;>
        simp [hmem, hba, List.mem_cons, ha]

/-- Helper: in a table whose ids are nodup, two rows with the same id are the
same row. -/
theorem id_unique_of_nodup (msgs : List Message)
    (hids : (msgs.map Message.id).Nodup) :
    ∀ m1, m1 ∈ msgs → ∀ m2, m2 ∈ msgs → m1.id = m2.id → m1 = m2 := by
  induction msgs with
  | nil => intro m1 h1; cases h1
  | cons a t ih =>
    intro m1 h1 m2 h2 heq
    simp only [List.map_cons, List.nodup_cons] at hids
    obtain ⟨hna, hnd⟩ := hids
    rcases List.mem_cons.mp h1 with h1 | h1 <;> rcases List.mem_cons.mp h2 with h2 | h2
    · rw [h1, h2]
    · exact absurd (List.mem_map.mpr ⟨m2, h2, (h1 ▸ heq).symm⟩) hna
    · exact absurd (List.mem_map.mpr ⟨m1, h1, h2 ▸ heq⟩) hna
    · exact ih hnd m1 h1 m2 h2 heq

/-- Helper: with nodup ids, a row's id occurs among the filtered rows' ids
exactly when the row itself satisfies the filter. -/
theorem mem_filter_ids_iff (msgs : List Message) (p : Message → Bool)
    (hids : (msgs.map Message.id).Nodup) (m : Message) (hm : m ∈ msgs) :
    m.id ∈ (msgs.filter p).map Message.id ↔ p m = true := by
  constructor
  · intro hmem
    obtain ⟨m2, hm2, hid⟩ := List.mem_map.mp hmem
    obtain ⟨hm2m, hp⟩ := List.mem_filter.mp hm2
    rwa [id_unique_of_nodup msgs hids m2 hm2m m hm hid] at hp
  · intro hp
    exact List.mem_map.mpr ⟨m, List.mem_filter.mpr ⟨hm, hp⟩, rfl⟩

/-- Claim C7 is false on the code as stated: on the HTTP retrieve path a room
with two unread messages from the other participant is marked read by two
individual row saves, not by one single bulk update operation. -/
theorem C7_counterexample : ¬ C7_claim_statement := fun h =>
  absurd ((h [⟨1, 1, 2, 0, false⟩, ⟨2, 1, 2, 1, false⟩] 1 1).2) (by decide)

/-- Claim C7 amended: the WebSocket entry path emits one single bulk update;
the HTTP retrieve path instead emits one row save per unread non-own message
(a per-row loop); when row ids are unique the two paths nevertheless produce
the same final table — exactly the unread messages of the room not sent by the
entering user become read, and no other row changes. -/
theorem C7_amended_entry_paths (msgs : List Message) (chat_room user : Nat)
    (hids : (msgs.map Message.id).Nodup) :
    (mark_messages_as_read msgs chat_room user).2 = [DbWrite.bulk_update chat_room user] ∧
    (ChatRoomViewSet_retrieve msgs chat_room user).2 =
      (msgs.filter (unreadForEntry chat_room user)).map (fun m => DbWrite.row_save m.id) ∧
    (ChatRoomViewSet_retrieve msgs chat_room user).1 =
      (mark_messages_as_read msgs chat_room user).1 := by
  refine ⟨rfl, rfl, ?_⟩
  show List.foldl (fun acc m => save_is_read_true acc m.id) msgs
      (List.filter (unreadForEntry chat_room user) msgs) =
    List.map (fun m =>
      if unreadForEntry chat_room user m = true then { m with is_read := true } else m) msgs
  rw [← List.foldl_map Message.id save_is_read_true, foldl_save_eq_map]
  refine List.map_congr_left fun m hm => ?_
  by_cases hp : unreadForEntry chat_room user m
  · rw [if_pos ((mem_filter_ids_iff msgs _ hids m hm).mpr hp), if_pos hp]
  · rw [if_neg fun hc => hp ((mem_filter_ids_iff msgs _ hids m hm).mp hc),
      if_neg hp]

/-- Witness for C7: the amended theorem applied to a two-message table with
distinct ids. -/
theorem C7_witness :
    (mark_messages_as_read [⟨1, 1, 2, 0, false⟩, ⟨2, 1, 2, 1, false⟩] 1 1).2
        = [DbWrite.bulk_update 1 1] ∧
    (ChatRoomViewSet_retrieve [⟨1, 1, 2, 0, false⟩, ⟨2, 1, 2, 1, false⟩] 1 1).2 =
      (([⟨1, 1, 2, 0, false⟩, ⟨2, 1, 2, 1, false⟩] : List Message).filter
          (unreadForEntry 1 1)).map (fun m => DbWrite.row_save m.id) ∧
    (ChatRoomViewSet_retrieve [⟨1, 1, 2, 0, false⟩, ⟨2, 1, 2, 1, false⟩] 1 1).1 =
      (mark_messages_as_read [⟨1, 1, 2, 0, false⟩, ⟨2, 1, 2, 1, false⟩] 1 1).1 :=
  C7_amended_entry_paths [⟨1, 1, 2, 0, false⟩, ⟨2, 1, 2, 1, false⟩] 1 1 (by decide)

/-- Helper: ReadMono is reflexive. -/
theorem ReadMono_rfl (msgs : List Message) : ReadMono msgs msgs :=
  ⟨rfl, fun _ _ _ hr => hr⟩

/-- Helper: ReadMono composes. -/
theorem ReadMono_trans {a b c : List Message} (h1 : ReadMono a b) (h2 : ReadMono b c) :
    ReadMono a c := by
  obtain ⟨l1, g1⟩ := h1
  obtain ⟨l2, g2⟩ := h2
  refine ⟨l2.trans l1, fun i h hc hr => ?_⟩
  have hb : i < b.length := by rw [l1]; exact h
  exact g2 i hb hc (g1 i h hb hr)

/-- Helper: a map whose function never turns is_read off is ReadMono. -/
theorem ReadMono_map (msgs : List Message) (f : Message → Message)
    (hf : ∀ m, m.is_read = true → (f m).is_read = true) :
    ReadMono msgs (msgs.map f) := by
  refine ⟨List.length_map msgs f, fun i h h2 hr => ?_⟩
  rw [List.get_map]
  exact hf _ hr

/-- Helper: every reachable read-state operation is monotone — none of the
three mutations ever turns is_read off. -/
theorem applyReadOp_mono (msgs : List Message) (op : ReadOp) :
    ReadMono msgs (applyReadOp msgs op) := by
  cases op with
  | bulk chat_room user =>
    exact ReadMono_map msgs _ fun m hm => by
      by_cases hc : unreadForEntry chat_room user m = true <;> simp [hc, hm]
  | loop_entry chat_room user =>
    show ReadMono msgs
      (List.foldl (fun acc m => save_is_read_true acc m.id) msgs
        (List.filter (unreadForEntry chat_room user) msgs))
    rw [← List.foldl_map Message.id save_is_read_true, foldl_save_eq_map]
    exact ReadMono_map msgs _ fun m hm => by
      by_cases hc : m.id ∈ (List.filter (unreadForEntry chat_room user) msgs).map Message.id <;>
        simp [hc, hm]
  | ack message_id =>
    exact ReadMono_map msgs _ fun m hm => by
      by_cases hc : (m.id == message_id && m.is_read == false) = true <;> simp [hc, hm]

/-- Helper: monotonicity over any sequence of read-state operations. -/
theorem foldl_applyReadOp_mono (ops : List ReadOp) (msgs : List Message) :
    ReadMono msgs (ops.foldl applyReadOp msgs) := by
  induction ops generalizing msgs with
  | nil => exact ReadMono_rfl msgs
  | cons op rest ih =>
    rw [List.foldl_cons]
    exact ReadMono_trans (applyReadOp_mono msgs op) (ih (applyReadOp msgs op))

/-- Claim C8 confirmed: under any sequence of bulk room-entry updates (either
path) and read acknowledgements, applied in any order, a read message stays
read at its position (is_read transitions false to true only); and
acknowledging a message that is already read leaves the table unchanged. -/
theorem C8_read_monotonicity (ops : List ReadOp) (msgs : List Message) :
    ReadMono msgs (ops.foldl applyReadOp msgs) ∧
    ∀ message_id, (∀ m, m ∈ msgs → m.id = message_id → m.is_read = true) →
      applyReadOp msgs (ReadOp.ack message_id) = msgs := by
  refine ⟨foldl_applyReadOp_mono ops msgs, fun message_id hall => ?_⟩
  show List.map _ msgs = msgs
  refine (List.map_congr_left fun m hm => ?_).trans (List.map_id' msgs)
  cases hc : m.id == message_id
  · simp [hc]
  · have hr : m.is_read = true := hall m hm (eq_of_beq hc)
    simp [hc, hr]

/-- Witness for C8: the theorem applied to a one-row table whose message is
already read, acknowledged once more. -/
theorem C8_witness :
    ReadMono [⟨1, 1, 2, 0, true⟩]
        (List.foldl applyReadOp [⟨1, 1, 2, 0, true⟩] [ReadOp.ack 1]) ∧
    applyReadOp [⟨1, 1, 2, 0, true⟩] (ReadOp.ack 1) = [⟨1, 1, 2, 0, true⟩] :=
  ⟨(C8_read_monotonicity [ReadOp.ack 1] [⟨1, 1, 2, 0, true⟩]).1,
   (C8_read_monotonicity [ReadOp.ack 1] [⟨1, 1, 2, 0, true⟩]).2 1
     (by intro m hm hid; rw [List.mem_singleton.mp hm])⟩

/-- Helper: the embedded Python string order is asymmetric. -/
theorem pystr_lt_asymm (x : List Char) :
    ∀ y, pystr_lt x y = true → pystr_lt y x = false := by
  induction x with
  | nil =>
    intro y h
    cases y with
    | nil => simp [pystr_lt] at h
    | cons b bs => rfl
  | cons a as ih =>
    intro y h
    cases y with
    | nil => simp [pystr_lt] at h
    | cons b bs =>
      simp only [pystr_lt] at h ⊢
      by_cases hab : a.val.toNat < b.val.toNat
      · have hba : ¬ b.val.toNat < a.val.toNat := Nat.lt_asymm hab
        simp [hab, hba]
      · by_cases hba : b.val.toNat < a.val.toNat
        · simp [hab, hba] at h
        · simp only [if_neg hab, if_neg hba] at h ⊢
          exact ih bs h

/-- Helper: the embedded Python string order is connected — two mutually
non-smaller strings are equal. -/
theorem pystr_lt_conn (x : List Char) :
    ∀ y, pystr_lt x y = false → pystr_lt y x = false → x = y := by
  induction x with
  | nil =>
    intro y h1 _
    cases y with
    | nil => rfl
    | cons b bs => simp [pystr_lt] at h1
  | cons a as ih =>
    intro y h1 h2
    cases y with
    | nil => simp [pystr_lt] at h2
    | cons b bs =>
      simp only [pystr_lt] at h1 h2
      by_cases hab : a.val.toNat < b.val.toNat
      · simp [hab] at h1
      · by_cases hba : b.val.toNat < a.val.toNat
        · simp [hab, hba] at h2
        · simp only [if_neg hab, if_neg hba] at h1 h2
          have hv : a.val.toNat = b.val.toNat :=
            Nat.le_antisymm (Nat.le_of_not_lt hba) (Nat.le_of_not_lt hab)
          rw [Char.ext (UInt32.ext hv), ih bs h1 h2]

/-- Helper: the room key is invariant under swapping the two participants. -/
theorem room_key_of_symm (a b : String) : room_key_of a b = room_key_of b a := by
  unfold room_key_of
  by_cases hab : pystr_lt a.data b.data = true
  · rw [if_pos hab, if_neg (by rw [pystr_lt_asymm a.data b.data hab]; simp)]
  · have hab' : pystr_lt a.data b.data = false := Bool.eq_false_iff.mpr hab
    by_cases hba : pystr_lt b.data a.data = true
    · rw [if_neg hab, if_pos hba]
    · have hba' : pystr_lt b.data a.data = false := Bool.eq_false_iff.mpr hba
      have hd : a.data = b.data := pystr_lt_conn a.data b.data hab' hba'
      have hs : a = b := by
        cases a
        cases b
        exact congrArg String.mk (by simpa using hd)
      rw [hs]

/-- Helper: ChatRoomSerializer_create on a two-participant list, with the
length guard and the pattern match reduced. -/
theorem ChatRoomSerializer_create_pair (rooms : List ChatRoom) (a b : String)
    (fresh_id : Nat) :
    ChatRoomSerializer_create rooms [a, b] fresh_id =
      match rooms.find? (fun r => r.room_key == room_key_of a b) with
      | some existing_room =>
        if [a, b].all (fun p => existing_room.participants.contains p) then
          Except.error "이미 이 사용자와의 채팅방이 존재합니다."
        else
          Except.ok
            ({ existing_room with
                participants := existing_room.participants ++
                  [a, b].filter (fun p => !existing_room.participants.contains p) },
             rooms.map fun r =>
              if r.id == existing_room.id then
                { existing_room with
                  participants := existing_room.participants ++
                    [a, b].filter (fun p => !existing_room.participants.contains p) }
              else r)
      | none =>
        Except.ok
          ({ id := fresh_id, room_key := room_key_of a b, participants := [a, b] },
           rooms ++ [{ id := fresh_id, room_key := room_key_of a b, participants := [a, b] }]) :=
  rfl

/-- Helper: a successful room creation leaves a room carrying the pair's key
in the resulting table. -/
theorem create_ok_key_mem {rooms : List ChatRoom} {a b : String} {id1 : Nat}
    {r1 : ChatRoom} {rooms1 : List ChatRoom}
    (hok : ChatRoomSerializer_create rooms [a, b] id1 = Except.ok (r1, rooms1)) :
    ∃ r, r ∈ rooms1 ∧ (r.room_key == room_key_of a b) = true := by
  rw [ChatRoomSerializer_create_pair] at hok
  split at hok
  next existing hfind =>
    split at hok
    next => cases hok
    next =>
      injection hok with h
      have hkey : (existing.room_key == room_key_of a b) = true := by
        simpa using List.find?_some hfind
      have hmem : existing ∈ rooms := List.mem_of_find?_eq_some hfind
      have hr : rooms1 = rooms.map fun r =>
          if r.id == existing.id then
            { existing with
              participants := existing.participants ++
                [a, b].filter (fun p => !existing.participants.contains p) }
          else r :=
        (congrArg Prod.snd h).symm
      refine ⟨{ existing with
          participants := existing.participants ++
            [a, b].filter (fun p => !existing.participants.contains p) },
        hr ▸ List.mem_map.mpr ⟨existing, hmem, by simp⟩, by simpa using hkey⟩
  next hfind =>
    injection hok with h
    have hr : rooms1 = rooms ++
        [{ id := id1, room_key := room_key_of a b, participants := [a, b] }] :=
      (congrArg Prod.snd h).symm
    refine ⟨{ id := id1, room_key := room_key_of a b, participants := [a, b] },
      hr ▸ List.mem_append_right rooms (List.mem_singleton.mpr rfl), by simp⟩

/-- Helper: the reduction of ChatRoomSerializer_create when a room with the
pair's key is found. -/
theorem ChatRoomSerializer_create_pair_found (rooms : List ChatRoom) (a b : String)
    (fresh_id : Nat) (existing : ChatRoom)
    (hfind : rooms.find? (fun r => r.room_key == room_key_of a b) = some existing) :
    ChatRoomSerializer_create rooms [a, b] fresh_id =
      if [a, b].all (fun p => existing.participants.contains p) then
        Except.error "이미 이 사용자와의 채팅방이 존재합니다."
      else
        Except.ok
          ({ existing with
              participants := existing.participants ++
                [a, b].filter (fun p => !existing.participants.contains p) },
           rooms.map fun r =>
            if r.id == existing.id then
              { existing with
                participants := existing.participants ++
                  [a, b].filter (fun p => !existing.participants.contains p) }
            else r) := by
  rw [ChatRoomSerializer_create_pair, hfind]

/-- Claim C6 is false on the code as stated: creating the room for users "1"
and "2" a second time (in either participant order) does not return or
reactivate the existing room — the serializer raises a ValidationError when
both users already participate. -/
theorem C6_counterexample : ¬ C6_claim_statement := by
  intro h
  obtain ⟨r2, rooms2, heq, -, -⟩ :=
    h.2 [] "1" "2" 10 11 ⟨10, "1_2", ["1", "2"]⟩ [⟨10, "1_2", ["1", "2"]⟩] rfl
  rw [show ChatRoomSerializer_create [⟨10, "1_2", ["1", "2"]⟩] ["2", "1"] 11 =
      Except.error "이미 이 사용자와의 채팅방이 존재합니다." from rfl] at heq
  cases heq

/-- Claim C6 amended: room_key is symmetric, and a second creation for the
same unordered pair never creates a duplicate — it either fails with the
duplicate-room ValidationError (both users still participate) or reactivates
the existing room without growing the room table. -/
theorem C6_amended_no_duplicate_room :
    (∀ a b, room_key_of a b = room_key_of b a) ∧
    ∀ (rooms : List ChatRoom) (a b : String) (id1 id2 : Nat)
      (r1 : ChatRoom) (rooms1 : List ChatRoom),
      ChatRoomSerializer_create rooms [a, b] id1 = Except.ok (r1, rooms1) →
      (∃ e, ChatRoomSerializer_create rooms1 [b, a] id2 = Except.error e) ∨
      (∃ r2 rooms2, ChatRoomSerializer_create rooms1 [b, a] id2 = Except.ok (r2, rooms2) ∧
        rooms2.length = rooms1.length) := by
  refine ⟨room_key_of_symm, fun rooms a b id1 id2 r1 rooms1 hok => ?_⟩
  obtain ⟨r, hr, hkey⟩ := create_ok_key_mem hok
  have hsome : (rooms1.find? (fun r => r.room_key == room_key_of b a)).isSome := by
    rw [List.find?_isSome]
    exact ⟨r, hr, by rw [← room_key_of_symm]; exact hkey⟩
  obtain ⟨found, hfound⟩ := Option.isSome_iff_exists.mp hsome
  rw [ChatRoomSerializer_create_pair_found rooms1 b a id2 found hfound]
  by_cases hall : ([b, a].all fun p => found.participants.contains p) = true
  · rw [if_pos hall]
    exact Or.inl ⟨_, rfl⟩
  · rw [if_neg hall]
    refine Or.inr ⟨_, _, rfl, ?_⟩
    exact List.length_map rooms1 _

/-- Witness for C6: the second conjunct applied to the concrete first creation
of the room for users "1" and "2". -/
theorem C6_witness :
    (∃ e, ChatRoomSerializer_create [⟨10, "1_2", ["1", "2"]⟩] ["2", "1"] 11
        = Except.error e) ∨
    (∃ r2 rooms2, ChatRoomSerializer_create [⟨10, "1_2", ["1", "2"]⟩] ["2", "1"] 11
        = Except.ok (r2, rooms2) ∧ rooms2.length = 1) :=
  C6_amended_no_duplicate_room.2 [] "1" "2" 10 11
    ⟨10, "1_2", ["1", "2"]⟩ [⟨10, "1_2", ["1", "2"]⟩] rfl

/-- Helper: the logging step never touches the Notification table. -/
theorem message_notif_log_notifications (conns : List WSConnection) (m : Message)
    (db : NotifDB) (r : Nat) :
    (message_notif_log conns m db r).notifications = db.notifications := by
  unfold message_notif_log
  split
  · rfl
  · split
    · rfl
    · split <;> rfl

/-- Helper: the logging step never pushes. -/
theorem message_notif_log_pushes (conns : List WSConnection) (m : Message)
    (db : NotifDB) (r : Nat) :
    (message_notif_log conns m db r).pushes = db.pushes := by
  unfold message_notif_log
  split
  · rfl
  · split
    · rfl
    · split <;> rfl

/-- Helper: the Notification table a step leaves behind depends only on the
table it starts from — never on the connection records, which only feed the
logger. -/
theorem message_notif_step_notifications_congr (conns conns' : List WSConnection)
    (m : Message) (su : String) (db db' : NotifDB)
    (hn : db.notifications = db'.notifications) (r : Nat) :
    (message_notif_step conns m su db r).notifications =
      (message_notif_step conns' m su db' r).notifications := by
  unfold message_notif_step
  simp only [message_notif_log_notifications, hn]
  split <;>
    simp [Notification_objects_create, send_notification_via_websocket,
      message_notif_log_notifications, hn]

/-- Helper: conns-independence of the Notification table over the whole
recipient loop. -/
theorem foldl_step_notifications_congr (l : List Nat) (conns conns' : List WSConnection)
    (m : Message) (su : String) (db db' : NotifDB)
    (hn : db.notifications = db'.notifications) :
    ((l.foldl (message_notif_step conns m su) db).notifications) =
      ((l.foldl (message_notif_step conns' m su) db').notifications) := by
  induction l generalizing db db' with
  | nil => exact hn
  | cons a t ih =>
    rw [List.foldl_cons, List.foldl_cons]
    exact ih _ _ (message_notif_step_notifications_congr conns conns' m su db db' hn a)

/-- Helper: a step only appends to the Notification table, so an existing
matching notification stays present. -/
theorem message_notif_step_exists_preserved (conns : List WSConnection) (m : Message)
    (su : String) (db : NotifDB) (r r2 : Nat)
    (h : message_notif_exists db.notifications r2 m = true) :
    message_notif_exists (message_notif_step conns m su db r).notifications r2 m = true := by
  simp only [message_notif_step]
  split
  · rwa [message_notif_log_notifications]
  · simp only [Notification_objects_create, send_notification_via_websocket,
      message_notif_exists, List.any_append, message_notif_log_notifications]
    unfold message_notif_exists at h
    simp [h]

/-- Helper: after the step for recipient r, a matching notification for r
exists — it was either already there or has just been created. -/
theorem message_notif_step_creates (conns : List WSConnection) (m : Message)
    (su : String) (db : NotifDB) (r : Nat) :
    message_notif_exists (message_notif_step conns m su db r).notifications r m = true := by
  simp only [message_notif_step]
  split
  next hex => exact hex
  next hex =>
    simp only [Notification_objects_create, send_notification_via_websocket,
      message_notif_exists, List.any_append, message_notif_log_notifications]
    simp

/-- Helper: matching notifications survive the whole recipient loop. -/
theorem foldl_step_exists_preserved (l : List Nat) (conns : List WSConnection)
    (m : Message) (su : String) (db : NotifDB) (r2 : Nat)
    (h : message_notif_exists db.notifications r2 m = true) :
    message_notif_exists ((l.foldl (message_notif_step conns m su) db).notifications) r2 m
      = true := by
  induction l generalizing db with
  | nil => exact h
  | cons a t ih =>
    rw [List.foldl_cons]
    exact ih _ (message_notif_step_exists_preserved conns m su db a r2 h)

/-- Helper: every recipient in the loop ends up with a matching notification. -/
theorem foldl_step_exists_of_mem (l : List Nat) (conns : List WSConnection)
    (m : Message) (su : String) (db : NotifDB) (r : Nat) (hr : r ∈ l) :
    message_notif_exists ((l.foldl (message_notif_step conns m su) db).notifications) r m
      = true := by
  induction l generalizing db with
  | nil => cases hr
  | cons a t ih =>
    rw [List.foldl_cons]
    rcases List.mem_cons.mp hr with rfl | hr
    · exact foldl_step_exists_preserved t conns m su _ r
        (message_notif_step_creates conns m su db r)
    · exact ih _ hr

/-- Helper: when every recipient of the loop already has its matching
notification, the loop leaves the Notification table unchanged. -/
theorem foldl_step_notifications_of_all_exist (l : List Nat) (conns : List WSConnection)
    (m : Message) (su : String) (db : NotifDB)
    (hall : ∀ r, r ∈ l → message_notif_exists db.notifications r m = true) :
    ((l.foldl (message_notif_step conns m su) db).notifications) = db.notifications := by
  induction l generalizing db with
  | nil => rfl
  | cons a t ih =>
    rw [List.foldl_cons]
    have hstep : (message_notif_step conns m su db a).notifications = db.notifications := by
      unfold message_notif_step
      rw [if_pos (by rw [message_notif_log_notifications]; exact hall a (List.mem_cons_self a t))]
      exact message_notif_log_notifications conns m db a
    rw [ih _ fun r hr => by rw [hstep]; exact hall r (List.mem_cons_of_mem a hr)]
    exact hstep

/-- Claim C1 is false on the code: with recipient 2 live in room 1 (an active
connection record exists), the handler for a new message by sender 1 still
creates a message-type notification for recipient 2 — the liveness inspection
only logs and never suppresses creation. -/
theorem C1_counterexample : ¬ C1_claim_statement := by
  intro h
  exact absurd
    (h emptyNotifDB [⟨2, 1, 0, none⟩] [1, 2] ⟨5, 1, 1, 10, false⟩ "u" 2
      (by decide) (by decide) (by decide))
    (by decide)

/-- Claim C1 amended: the message-notification handler creates notifications
regardless of recipient liveness — the Notification table it produces does not
depend on the connection records at all; every participant other than the
sender ends up with a matching notification for the message; and a second run
of the handler adds no further rows (idempotent per message and recipient). -/
theorem C1_amended_notify_regardless_of_liveness :
    (∀ (conns conns' : List WSConnection) (participants : List Nat) (m : Message)
        (su : String) (db : NotifDB),
      (create_notification_for_new_message conns participants m su db).notifications =
        (create_notification_for_new_message conns' participants m su db).notifications) ∧
    (∀ (conns : List WSConnection) (participants : List Nat) (m : Message)
        (su : String) (db : NotifDB) (r : Nat),
      r ∈ participants → r ≠ m.sender →
      message_notif_exists
        (create_notification_for_new_message conns participants m su db).notifications r m
        = true) ∧
    (∀ (conns : List WSConnection) (participants : List Nat) (m : Message)
        (su : String) (db : NotifDB),
      (create_notification_for_new_message conns participants m su
          (create_notification_for_new_message conns participants m su db)).notifications =
        (create_notification_for_new_message conns participants m su db).notifications) := by
  refine ⟨?_, ?_, ?_⟩
  · intro conns conns' participants m su db
    exact foldl_step_notifications_congr _ conns conns' m su db db rfl
  · intro conns participants m su db r hmem hne
    unfold create_notification_for_new_message
    refine foldl_step_exists_of_mem _ conns m su db r ?_
    refine List.mem_filter.mpr ⟨hmem, ?_⟩
    simpa using hne
  · intro conns participants m su db
    unfold create_notification_for_new_message
    refine foldl_step_notifications_of_all_exist _ conns m su _ fun r hr => ?_
    exact foldl_step_exists_of_mem _ conns m su db r hr

/-- Witness for C1: the second conjunct applied at a concrete input — message 5
by sender 1 in room 1, recipient 2 live, empty notification table. -/
theorem C1_witness :
    message_notif_exists
      (create_notification_for_new_message [⟨2, 1, 0, none⟩] [1, 2] ⟨5, 1, 1, 10, false⟩ "u"
        emptyNotifDB).notifications 2 ⟨5, 1, 1, 10, false⟩ = true :=
  C1_amended_notify_regardless_of_liveness.2.1 [⟨2, 1, 0, none⟩] [1, 2] ⟨5, 1, 1, 10, false⟩
    "u" emptyNotifDB 2 (by decide) (by decide)

/-- Helper: the push-count bookkeeping of one message-notification step: two
pushes per created row (one from the post_save receiver inside create, one
from the explicit call), none otherwise. -/
theorem message_notif_step_push_count (conns : List WSConnection) (m : Message)
    (su : String) (db : NotifDB) (r : Nat) :
    (message_notif_step conns m su db r).pushes.length + 2 * db.notifications.length =
      db.pushes.length + 2 * (message_notif_step conns m su db r).notifications.length := by
  simp only [message_notif_step]
  split
  · rw [message_notif_log_pushes, message_notif_log_notifications]
  · simp only [Notification_objects_create, send_notification_via_websocket,
      message_notif_log_pushes, message_notif_log_notifications,
      List.length_append, List.length_cons, List.length_nil]
    omega

/-- Helper: the push-count bookkeeping over the whole recipient loop. -/
theorem foldl_step_push_count (l : List Nat) (conns : List WSConnection) (m : Message)
    (su : String) (db : NotifDB) :
    ((l.foldl (message_notif_step conns m su) db).pushes.length) +
        2 * db.notifications.length =
      db.pushes.length +
        2 * ((l.foldl (message_notif_step conns m su) db).notifications.length) := by
  induction l generalizing db with
  | nil => rfl
  | cons a t ih =>
    rw [List.foldl_cons]
    have h1 := message_notif_step_push_count conns m su db a
    have h2 := ih (message_notif_step conns m su db a)
    omega

/-- Claim C10 confirmed: per created Notification row, the push primitive runs
twice for message-type notifications (the post_save receiver inside the create
plus the explicit call in the message handler) and exactly once for the
comment, follow and like handlers (the post_save receiver alone).  Stated as
conservation equations between rows added and pushes added. -/
theorem C10_push_per_notification :
    (∀ (conns : List WSConnection) (participants : List Nat) (m : Message)
        (su : String) (db : NotifDB),
      (create_notification_for_new_message conns participants m su db).pushes.length +
          2 * db.notifications.length =
        db.pushes.length +
          2 * (create_notification_for_new_message conns participants m su
            db).notifications.length) ∧
    (∀ (c : Comment) (su : String) (db : NotifDB),
      (create_notification_for_new_comment c su db).pushes.length +
          db.notifications.length =
        db.pushes.length + (create_notification_for_new_comment c su db).notifications.length) ∧
    (∀ (f : Follow) (su : String) (db : NotifDB),
      (create_notification_for_new_follower f su db).pushes.length +
          db.notifications.length =
        db.pushes.length +
          (create_notification_for_new_follower f su db).notifications.length) ∧
    (∀ (l : Like) (su : String) (db : NotifDB),
      (create_notification_for_new_like l su db).pushes.length + db.notifications.length =
        db.pushes.length + (create_notification_for_new_like l su db).notifications.length) := by
  refine ⟨?_, ?_, ?_, ?_⟩
  · intro conns participants m su db
    exact foldl_step_push_count _ conns m su db
  · intro c su db
    simp only [create_notification_for_new_comment]
    split
    · rfl
    · simp only [Notification_objects_create, send_notification_via_websocket,
        List.length_append, List.length_cons, List.length_nil]
      omega
  · intro f su db
    simp only [create_notification_for_new_follower]
    split
    · rfl
    · simp only [Notification_objects_create, send_notification_via_websocket,
        List.length_append, List.length_cons, List.length_nil]
      omega
  · intro l su db
    simp only [create_notification_for_new_like]
    split
    · rfl
    · simp only [Notification_objects_create, send_notification_via_websocket,
        List.length_append, List.length_cons, List.length_nil]
      omega


end GamgyulHouse
